import Mathlib

/-!
Shallow embedding of the mentor request/assignment workflow, the registration
rate limiter, the admin quota guard and the mentor capacity check of the
College_portal repository (Django app), together with proofs of the spec's
claims about them.

Sources embedded:
- `src/core/views.py` : `request_mentor` (lines 305-327), `assign_mentor`
  (lines 380-426);
- `src/College Project/core/middleware.py` :
  `RegistrationRateLimitMiddleware.__call__` (lines 18-27),
  `AdminRestrictionMiddleware.__call__` / `_is_admin_creation_request`
  (lines 36-58);
- `src/College Project/core/forms.py` : `MentorAssignmentForm.clean`
  (lines 195-210);
- `src/College Project/core/models.py` : `UserProfile`, `MentorRequest`,
  `MentorAssignment`, `Mentor`;
- `src/core/utils.py` : `send_mentor_assignment` (lines 85-144),
  `send_mentor_notification_to_mentor` (lines 147-261).

Database rows are lists (ordered by primary key: new rows are appended at the
end, matching auto-increment pk order, which is the order `QuerySet.first()`
observes for these unordered models).
-/

namespace CollegePortal

/-- A row of `django.contrib.auth.models.User`: only the fields the embedded
views read (`pk`, `is_staff`, `is_superuser`). -/
structure UserRec where
  id : Nat
  isStaff : Bool
  isSuperuser : Bool
deriving DecidableEq, Repr

/-- A row of `core.models.UserProfile`: the one-to-one profile of a user,
carrying the `assigned_mentor` foreign key (nullable). -/
structure ProfileRec where
  userId : Nat
  assignedMentor : Option Nat
deriving DecidableEq, Repr

/-- The `status` choices of `core.models.MentorRequest`. -/
inductive ReqStatus
  | pending
  | approved
  | rejected
deriving DecidableEq, Repr

/-- A row of `core.models.MentorRequest` (the `message` text column is inert
and omitted). -/
structure MentorRequestRec where
  userId : Nat
  status : ReqStatus
deriving DecidableEq, Repr

/-- A row of `core.models.MentorAssignment`: the append-only audit record
`{user, mentor, assigned_by}`. -/
structure AssignmentRec where
  userId : Nat
  mentorId : Nat
  assignedBy : Nat
deriving DecidableEq, Repr

/-- The relational store as the embedded views see it: users, mentors
(by pk), profiles, assignment audit rows and mentor requests. -/
structure PortalState where
  users : List UserRec
  mentors : List Nat
  profiles : List ProfileRec
  assignments : List AssignmentRec
  requests : List MentorRequestRec
deriving DecidableEq, Repr

/-- `MentorRequest.objects.filter(user=..., status="pending")` membership
test for one row. -/
def isPendingFor (uid : Nat) (r : MentorRequestRec) : Bool :=
  decide (r.userId = uid ∧ r.status = ReqStatus.pending)

/-- Number of pending `MentorRequest` rows of a user. -/
def pendingCount (s : PortalState) (uid : Nat) : Nat :=
  s.requests.countP (isPendingFor uid)

/-- Result of the `request_mentor` view: request row created, or refused
with the "already have a pending mentor request" warning. -/
inductive RequestResult
  | created
  | alreadyPending
deriving DecidableEq, Repr

/-- `core.views.request_mentor` (src/core/views.py lines 305-327): refuse
when a pending `MentorRequest` for the caller exists, otherwise create one
with `status="pending"`.  The admin notification e-mail it then sends has no
effect on the store and is omitted here. -/
def request_mentor (s : PortalState) (uid : Nat) : RequestResult × PortalState :=
  if s.requests.any (isPendingFor uid) then
    (RequestResult.alreadyPending, s)
  else
    (RequestResult.created,
      { s with requests := s.requests ++ [{ userId := uid, status := ReqStatus.pending }] })

/-- `User.objects.get(pk=user_id)` (first row with this pk). -/
def findUser (s : PortalState) (uid : Nat) : Option UserRec :=
  s.users.find? (fun u => u.id == uid)

/-- `Mentor.objects.get(pk=mentor_id)` reduced to existence of the pk. -/
def mentorExists (s : PortalState) (mid : Nat) : Bool :=
  s.mentors.contains mid

/-- Does the user have a `UserProfile` row (`user.profile`)? -/
def hasProfile (s : PortalState) (uid : Nat) : Bool :=
  s.profiles.any (fun p => p.userId == uid)

/-- `profile.assigned_mentor = mentor; profile.save()` on the profile rows
of the given user. -/
def setAssignedMentor (ps : List ProfileRec) (uid mid : Nat) : List ProfileRec :=
  ps.map (fun p => if p.userId == uid then { p with assignedMentor := some mid } else p)

/-- The `assigned_mentor` column of the user's profile (none when the user
has no profile row). -/
def getAssignedMentor (s : PortalState) (uid : Nat) : Option Nat :=
  match s.profiles.find? (fun p => p.userId == uid) with
  | some p => p.assignedMentor
  | none => none

/-- `MentorRequest.objects.filter(user=user, status="pending").first()`
followed by `status = "approved"; save()`: mark the first pending request of
the user approved, leave everything else in place. -/
def approveFirstPending (uid : Nat) : List MentorRequestRec → List MentorRequestRec
  | [] => []
  | r :: rs =>
    if isPendingFor uid r then { r with status := ReqStatus.approved } :: rs
    else r :: approveFirstPending uid rs

/-- Result of the `assign_mentor` view on the POST path: success, the
"Invalid student or mentor selected." error, or the "Cannot assign mentors
to admin/staff accounts." error. -/
inductive AssignResult
  | success
  | invalidSelection
  | staffTarget
deriving DecidableEq, Repr

/-- `core.views.assign_mentor` (src/core/views.py lines 380-426), POST path,
with `staffId` standing for the authenticated `request.user` admitted by
`@staff_member_required`: look up student and mentor (error on either
missing), refuse staff/superuser targets, otherwise set the profile's
`assigned_mentor`, append one `MentorAssignment` audit row and approve the
first pending `MentorRequest` of the student if any.  The notification calls
that follow do not touch the store and are modelled separately
(`assign_mentor_view`).  One error path is not modelled: `user.profile`
(views.py line 401) raises for a non-staff user with no `UserProfile` row
and the view then aborts with no writes; theorems concluding success
therefore carry a `hasProfile` (or equivalent) hypothesis confining them to
profiled students. -/
def assign_mentor (s : PortalState) (staffId uid mid : Nat) : AssignResult × PortalState :=
  match findUser s uid with
  | none => (AssignResult.invalidSelection, s)
  | some u =>
    if mentorExists s mid then
      if u.isStaff || u.isSuperuser then
        (AssignResult.staffTarget, s)
      else
        (AssignResult.success,
          { s with
            profiles := setAssignedMentor s.profiles uid mid
            assignments := s.assignments ++ [{ userId := uid, mentorId := mid, assignedBy := staffId }]
            requests := approveFirstPending uid s.requests })
    else (AssignResult.invalidSelection, s)

/-- Spec-side characterization used to state claim C1: every pending request
of the student marked approved, all other rows untouched.  Below it is proved
to coincide with the code's first-match update whenever the student has at
most one pending request. -/
def approveEveryPending (uid : Nat) (rs : List MentorRequestRec) : List MentorRequestRec :=
  rs.map (fun r => if isPendingFor uid r then { r with status := ReqStatus.approved } else r)

/-- The two store-mutating actions of the workflow, for stating reachable-state
invariants over action sequences. -/
inductive PortalOp
  | submit (uid : Nat)
  | assign (staffId uid mid : Nat)
deriving DecidableEq, Repr

/-- State reached by one action. -/
def applyOp (s : PortalState) : PortalOp → PortalState
  | PortalOp.submit uid => (request_mentor s uid).2
  | PortalOp.assign staffId uid mid => (assign_mentor s staffId uid mid).2

/-- State reached by a sequence of actions. -/
def applyOps (s : PortalState) (ops : List PortalOp) : PortalState :=
  ops.foldl applyOp s

/-! ### Notifications (src/core/utils.py)

`send_mentor_assignment` and `send_mentor_notification_to_mentor` return a
Bool and never raise: every failing path (empty recipient, mail backend
failure — the sends use `fail_silently=True` — or any exception) is caught
and reported as `false`.  Whether the underlying mail backend delivers is an
external outcome, passed in as `delivered`. -/

/-- `core.utils.send_mentor_assignment` (lines 85-144): `false` when the
recipient address is empty, otherwise the mail backend's outcome; never an
exception. -/
def send_mentor_assignment (toEmail : String) (delivered : Bool) : Bool :=
  if toEmail = "" then false else delivered

/-- `core.utils.send_mentor_notification_to_mentor` (lines 147-261): `false`
when the mentor's address is empty, otherwise the mail backend's outcome;
never an exception. -/
def send_mentor_notification_to_mentor (mentorEmail : String) (delivered : Bool) : Bool :=
  if mentorEmail = "" then false else delivered

/-- Full outcome of one `assign_mentor` request: HTTP-level result, resulting
store, and the (ignored) return values of the two notification calls. -/
structure AssignOutcome where
  result : AssignResult
  state : PortalState
  studentNotified : Bool
  mentorNotified : Bool
deriving DecidableEq, Repr

/-- `core.views.assign_mentor` including its notification tail (lines
405-426): on success the view calls `send_mentor_assignment` to the student
and `send_mentor_notification_to_mentor` to the mentor, discards both return
values, and reports success unconditionally.  `d1`/`d2` are the mail
backend's delivery outcomes for the two sends. -/
def assign_mentor_view (s : PortalState) (staffId uid mid : Nat)
    (studentEmail mentorEmail : String) (d1 d2 : Bool) : AssignOutcome :=
  match assign_mentor s staffId uid mid with
  | (AssignResult.success, s') =>
    { result := AssignResult.success
      state := s'
      studentNotified := send_mentor_assignment studentEmail d1
      mentorNotified := send_mentor_notification_to_mentor mentorEmail d2 }
  | (r, s') => { result := r, state := s', studentNotified := false, mentorNotified := false }

/-! ### Registration rate limiter
(`RegistrationRateLimitMiddleware.__call__`, src/College Project/core/middleware.py
lines 18-27).  The Django cache entry for one client key: a count plus the
absolute expiry instant; `cache.get` yields the default 0 once
`expiresAt ≤ now`, and `cache.set(key, v, timeout=60)` stores `(v, now+60)`. -/

/-- One cache entry of the per-key rate-limit counter. -/
structure RLEntry where
  count : Nat
  expiresAt : Nat
deriving DecidableEq, Repr

/-- `cache.get(key, 0)` at the given instant: 0 when absent or expired. -/
def cacheGet (entry : Option RLEntry) (now : Nat) : Nat :=
  match entry with
  | none => 0
  | some e => if now < e.expiresAt then e.count else 0

/-- Response of the middleware to one registration submission. -/
inductive RLResult
  | allowed
  | tooMany
deriving DecidableEq, Repr

/-- One pass of `RegistrationRateLimitMiddleware.__call__` for a POST to
`/register/submit/`: read the count (default 0), reject with HTTP 429
without writing when it is already ≥ 5, otherwise store count+1 with a
fresh 60-second timeout. -/
def rateLimitCall (entry : Option RLEntry) (now : Nat) : RLResult × Option RLEntry :=
  let count := cacheGet entry now
  if 5 ≤ count then (RLResult.tooMany, entry)
  else (RLResult.allowed, some { count := count + 1, expiresAt := now + 60 })

/-- Cache entry after a timed sequence of submissions on one key. -/
def rateLimitRun (entry : Option RLEntry) : List Nat → Option RLEntry
  | [] => entry
  | t :: ts => rateLimitRun (rateLimitCall entry t).2 ts

/-! ### Admin quota guard
(`AdminRestrictionMiddleware`, src/College Project/core/middleware.py lines
36-58).  An admin-site POST that creates a staff account (`is_staff` checked,
`_is_admin_creation_request`) is refused with HTTP 403 when
`User.objects.filter(is_staff=True).count() >= 4`; otherwise it proceeds and
the new staff row is written.  `CustomUserAdmin.has_add_permission`
(src/College Project/core/admin.py lines 175-182) enforces the same bound. -/

/-- `User.objects.filter(is_staff=True).count()`. -/
def staffCount (users : List UserRec) : Nat :=
  users.countP (fun u => u.isStaff)

/-- Response of the guard to one privilege-grant attempt. -/
inductive GrantResult
  | forbidden
  | granted
deriving DecidableEq, Repr

/-- One guarded admin-creation attempt: refuse (no write) when 4 or more
staff accounts exist, else create the new staff account. -/
def adminCreateStaff (users : List UserRec) (newId : Nat) : GrantResult × List UserRec :=
  if 4 ≤ staffCount users then (GrantResult.forbidden, users)
  else (GrantResult.granted, users ++ [{ id := newId, isStaff := true, isSuperuser := false }])

/-- User table after a sequence of guarded admin-creation attempts. -/
def adminCreateStaffSeq (users : List UserRec) : List Nat → List UserRec
  | [] => users
  | n :: ns => adminCreateStaffSeq (adminCreateStaff users n).2 ns

/-! ### Mentor capacity check
(`MentorAssignmentForm.clean`, src/College Project/core/forms.py lines
195-210). -/

/-- `MentorAssignment.objects.filter(mentor=mentor).count()`: active
assignments of a mentor. -/
def mentorLoad (s : PortalState) (mid : Nat) : Nat :=
  s.assignments.countP (fun a => a.mentorId == mid)

/-- Validation outcome of `MentorAssignmentForm.clean`. -/
inductive FormCleanResult
  | ok
  | alreadyAssigned
  | mentorFull
deriving DecidableEq, Repr

/-- `MentorAssignmentForm.clean`: error when the student already has any
`MentorAssignment` row, then error when the mentor already has 10 or more
assignment rows, else accept. -/
def mentorAssignmentFormClean (s : PortalState) (uid mid : Nat) : FormCleanResult :=
  if s.assignments.any (fun a => a.userId == uid) then FormCleanResult.alreadyAssigned
  else if 10 ≤ mentorLoad s mid then FormCleanResult.mentorFull
  else FormCleanResult.ok

/-! ## Helper lemmas -/

lemma any_pending_iff (s : PortalState) (uid : Nat) :
    s.requests.any (isPendingFor uid) = true ↔ 0 < pendingCount s uid := by
  rw [pendingCount, List.countP_pos_iff, List.any_eq_true]

lemma request_mentor_of_pending (s : PortalState) (uid : Nat)
    (h : 0 < pendingCount s uid) :
    request_mentor s uid = (RequestResult.alreadyPending, s) := by
  rw [request_mentor, if_pos ((any_pending_iff s uid).mpr h)]

lemma request_mentor_of_no_pending (s : PortalState) (uid : Nat)
    (h : pendingCount s uid = 0) :
    request_mentor s uid =
      (RequestResult.created,
        { s with requests := s.requests ++ [{ userId := uid, status := ReqStatus.pending }] }) := by
  rw [request_mentor, if_neg]
  intro hany
  have := (any_pending_iff s uid).mp hany
  omega

lemma isPendingFor_self (uid : Nat) :
    isPendingFor uid { userId := uid, status := ReqStatus.pending } = true := by
  simp [isPendingFor]

lemma isPendingFor_other (uid uid' : Nat) (h : uid' ≠ uid) :
    isPendingFor uid { userId := uid', status := ReqStatus.pending } = false := by
  simp [isPendingFor, h]

lemma isPendingFor_approved (uid : Nat) (r : MentorRequestRec) :
    isPendingFor uid { r with status := ReqStatus.approved } = false := by
  simp [isPendingFor]

lemma approveFirstPending_of_zero (uid : Nat) (rs : List MentorRequestRec)
    (h : rs.countP (isPendingFor uid) = 0) :
    approveFirstPending uid rs = rs := by
  induction rs with
  | nil => rfl
  | cons r rs ih =>
    rw [List.countP_cons] at h
    by_cases hp : isPendingFor uid r = true
    · rw [if_pos hp] at h
      omega
    · rw [if_neg hp] at h
      rw [approveFirstPending, if_neg hp, ih (by omega)]

lemma approveEveryPending_cons (uid : Nat) (r : MentorRequestRec) (rs : List MentorRequestRec) :
    approveEveryPending uid (r :: rs)
      = (if isPendingFor uid r then { r with status := ReqStatus.approved } else r)
          :: approveEveryPending uid rs := rfl

lemma approveEveryPending_of_zero (uid : Nat) (rs : List MentorRequestRec)
    (h : rs.countP (isPendingFor uid) = 0) :
    approveEveryPending uid rs = rs := by
  induction rs with
  | nil => rfl
  | cons r rs ih =>
    rw [List.countP_cons] at h
    by_cases hp : isPendingFor uid r = true
    · rw [if_pos hp] at h
      omega
    · rw [if_neg hp] at h
      rw [approveEveryPending_cons, if_neg hp, ih (by omega)]

lemma approveFirstPending_eq_every (uid : Nat) (rs : List MentorRequestRec)
    (h : rs.countP (isPendingFor uid) ≤ 1) :
    approveFirstPending uid rs = approveEveryPending uid rs := by
  induction rs with
  | nil => rfl
  | cons r rs ih =>
    rw [List.countP_cons] at h
    by_cases hp : isPendingFor uid r = true
    · rw [if_pos hp] at h
      have h0 : rs.countP (isPendingFor uid) = 0 := by omega
      rw [approveFirstPending, if_pos hp, approveEveryPending_cons, if_pos hp,
        approveEveryPending_of_zero uid rs h0]
    · rw [if_neg hp] at h
      rw [approveFirstPending, if_neg hp, approveEveryPending_cons, if_neg hp,
        ih (by omega)]

lemma countP_approveFirstPending_le (u uid : Nat) (rs : List MentorRequestRec) :
    (approveFirstPending u rs).countP (isPendingFor uid) ≤ rs.countP (isPendingFor uid) := by
  induction rs with
  | nil => simp [approveFirstPending]
  | cons r rs ih =>
    by_cases hp : isPendingFor u r
    · rw [approveFirstPending, if_pos hp, List.countP_cons, List.countP_cons,
        isPendingFor_approved]
      simp only [Bool.false_eq_true, if_false]
      omega
    · rw [approveFirstPending, if_neg hp, List.countP_cons, List.countP_cons]
      omega

lemma setAssignedMentor_cons (p : ProfileRec) (ps : List ProfileRec) (uid mid : Nat) :
    setAssignedMentor (p :: ps) uid mid
      = (if p.userId == uid then { p with assignedMentor := some mid } else p)
          :: setAssignedMentor ps uid mid := rfl

lemma find?_setAssignedMentor (ps : List ProfileRec) (uid mid : Nat)
    (h : ps.any (fun p => p.userId == uid) = true) :
    (setAssignedMentor ps uid mid).find? (fun p => p.userId == uid)
      = some { userId := uid, assignedMentor := some mid } := by
  induction ps with
  | nil => simp at h
  | cons p ps ih =>
    by_cases hp : (p.userId == uid) = true
    · have huid : p.userId = uid := by simpa using hp
      rw [setAssignedMentor_cons, if_pos hp, List.find?_cons_of_pos _ (by simpa using hp)]
      cases p
      simp_all
    · rw [setAssignedMentor_cons, if_neg hp, List.find?_cons_of_neg _ (by simpa using hp)]
      refine ih ?_
      rcases List.any_eq_true.mp h with ⟨q, hq, hqq⟩
      rcases List.mem_cons.mp hq with hq' | hq'
      · exact absurd hqq (by simpa [hq'] using hp)
      · exact List.any_eq_true.mpr ⟨q, hq', hqq⟩

lemma getAssignedMentor_of_profiles (s' : PortalState) (ps : List ProfileRec) (uid mid : Nat)
    (hps : s'.profiles = setAssignedMentor ps uid mid)
    (h : ps.any (fun p => p.userId == uid) = true) :
    getAssignedMentor s' uid = some mid := by
  rw [getAssignedMentor, hps, find?_setAssignedMentor ps uid mid h]

lemma pendingCount_applyOp_le (s : PortalState) (op : PortalOp) (uid : Nat)
    (h : pendingCount s uid ≤ 1) :
    pendingCount (applyOp s op) uid ≤ 1 := by
  cases op with
  | submit uid' =>
    by_cases hany : s.requests.any (isPendingFor uid') = true
    · simp [applyOp, request_mentor, hany, h]
    · have hz : pendingCount s uid' = 0 := by
        rcases Nat.eq_zero_or_pos (pendingCount s uid') with h0 | h0
        · exact h0
        · exact absurd ((any_pending_iff s uid').mpr h0) hany
      rw [applyOp, request_mentor_of_no_pending s uid' hz]
      by_cases huid : uid' = uid
      · subst huid
        simp only [pendingCount] at hz ⊢
        rw [List.countP_append]
        simp [isPendingFor_self, hz]
      · simp only [pendingCount] at h ⊢
        rw [List.countP_append]
        simpa [isPendingFor_other uid uid' huid] using h
  | assign staffId u m =>
    cases hfu : findUser s u with
    | none => simpa [applyOp, assign_mentor, hfu] using h
    | some usr =>
      by_cases hm : mentorExists s m = true
      · by_cases hstaff : (usr.isStaff || usr.isSuperuser) = true
        · simpa [applyOp, assign_mentor, hfu, hm, hstaff] using h
        · have hle := countP_approveFirstPending_le u uid s.requests
          have hstate : applyOp s (PortalOp.assign staffId u m)
              = { s with
                  profiles := setAssignedMentor s.profiles u m
                  assignments :=
                    s.assignments ++ [{ userId := u, mentorId := m, assignedBy := staffId }]
                  requests := approveFirstPending u s.requests } := by
            simp [applyOp, assign_mentor, hfu, hm, hstaff]
          rw [hstate]
          simp only [pendingCount] at h hle ⊢
          omega
      · simpa [applyOp, assign_mentor, hfu, hm] using h

lemma pendingCount_applyOps_le (s : PortalState) (ops : List PortalOp) (uid : Nat)
    (h : pendingCount s uid ≤ 1) :
    pendingCount (applyOps s ops) uid ≤ 1 := by
  induction ops generalizing s with
  | nil => exact h
  | cons op ops ih =>
    rw [applyOps, List.foldl_cons]
    exact ih (applyOp s op) (pendingCount_applyOp_le s op uid h)

lemma assign_mentor_success_state (s : PortalState) (staffId uid mid : Nat) (u : UserRec)
    (hfu : findUser s uid = some u) (hm : mentorExists s mid = true)
    (hstaff : (u.isStaff || u.isSuperuser) = false) :
    assign_mentor s staffId uid mid
      = (AssignResult.success,
        { s with
          profiles := setAssignedMentor s.profiles uid mid
          assignments :=
            s.assignments ++ [{ userId := uid, mentorId := mid, assignedBy := staffId }]
          requests := approveFirstPending uid s.requests }) := by
  simp [assign_mentor, hfu, hm, hstaff]

lemma assign_mentor_failure_state (s : PortalState) (staffId uid mid : Nat)
    (h : (assign_mentor s staffId uid mid).1 ≠ AssignResult.success) :
    (assign_mentor s staffId uid mid).2 = s := by
  cases hfu : findUser s uid with
  | none => simp [assign_mentor, hfu]
  | some u =>
    by_cases hm : mentorExists s mid = true
    · by_cases hstaff : (u.isStaff || u.isSuperuser) = true
      · simp [assign_mentor, hfu, hm, hstaff]
      · refine absurd ?_ h
        rw [assign_mentor_success_state s staffId uid mid u hfu hm
          (by simpa using hstaff)]
    · simp [assign_mentor, hfu, hm]

lemma assign_mentor_success_inv (s : PortalState) (staffId uid mid : Nat)
    (h : (assign_mentor s staffId uid mid).1 = AssignResult.success) :
    ∃ u, findUser s uid = some u ∧ mentorExists s mid = true ∧
      (u.isStaff || u.isSuperuser) = false := by
  cases hfu : findUser s uid with
  | none => rw [assign_mentor, hfu] at h; cases h
  | some u =>
    by_cases hm : mentorExists s mid = true
    · by_cases hstaff : (u.isStaff || u.isSuperuser) = true
      · exfalso
        rw [assign_mentor, hfu] at h
        simp [hm, hstaff] at h
      · exact ⟨u, hfu ▸ rfl, hm, by simpa using hstaff⟩
    · exfalso
      rw [assign_mentor, hfu] at h
      simp [hm] at h

lemma rateLimitCall_fresh (now : Nat) :
    rateLimitCall none now = (RLResult.allowed, some { count := 1, expiresAt := now + 60 }) := by
  simp [rateLimitCall, cacheGet]

lemma rateLimitCall_live_allowed (c e now : Nat) (hv : now < e) (hc : c < 5) :
    rateLimitCall (some { count := c, expiresAt := e }) now
      = (RLResult.allowed, some { count := c + 1, expiresAt := now + 60 }) := by
  have hget : cacheGet (some { count := c, expiresAt := e }) now = c := by
    simp [cacheGet, hv]
  rw [rateLimitCall, hget, if_neg (by omega)]

lemma rateLimitCall_live_full (c e now : Nat) (hv : now < e) (hc : 5 ≤ c) :
    rateLimitCall (some { count := c, expiresAt := e }) now
      = (RLResult.tooMany, some { count := c, expiresAt := e }) := by
  have hget : cacheGet (some { count := c, expiresAt := e }) now = c := by
    simp [cacheGet, hv]
  rw [rateLimitCall, hget, if_pos hc]

lemma rateLimitCall_expired (c e now : Nat) (hv : e ≤ now) :
    rateLimitCall (some { count := c, expiresAt := e }) now
      = (RLResult.allowed, some { count := 1, expiresAt := now + 60 }) := by
  have hget : cacheGet (some { count := c, expiresAt := e }) now = 0 := by
    simp [cacheGet]
    omega
  rw [rateLimitCall, hget, if_neg (by omega)]

lemma staffCount_seq_le (ids : List Nat) (users : List UserRec)
    (h : staffCount users ≤ 4) :
    staffCount (adminCreateStaffSeq users ids) ≤ 4 := by
  induction ids generalizing users with
  | nil => exact h
  | cons n ns ih =>
    rw [adminCreateStaffSeq]
    refine ih _ ?_
    by_cases hc : 4 ≤ staffCount users
    · rw [adminCreateStaff, if_pos hc]
      exact h
    · rw [adminCreateStaff, if_neg hc]
      simp only [staffCount, List.countP_append, List.countP_cons, List.countP_nil]
      simp only [staffCount] at hc
      simp
      omega

/-! ## Example stores used by witnesses and counterexamples -/

/-- Store with student 1 (non-staff, has a profile, one pending request),
staff member 9 and mentor 5. -/
def exState : PortalState :=
  { users := [{ id := 1, isStaff := false, isSuperuser := false },
              { id := 9, isStaff := true, isSuperuser := false }]
    mentors := [5]
    profiles := [{ userId := 1, assignedMentor := none }]
    assignments := []
    requests := [{ userId := 1, status := ReqStatus.pending }] }

/-- Store with student 1 already mentored by mentor 5 (profile reference and
one audit row) and no pending request. -/
def mentoredState : PortalState :=
  { users := [{ id := 1, isStaff := false, isSuperuser := false }]
    mentors := [5, 6]
    profiles := [{ userId := 1, assignedMentor := some 5 }]
    assignments := [{ userId := 1, mentorId := 5, assignedBy := 9 }]
    requests := [] }

/-- Store where mentor 1 already has 10 active assignments (students 1..10)
and student 11 is an unassigned non-staff user with a profile. -/
def fullMentorState : PortalState :=
  { users := [{ id := 11, isStaff := false, isSuperuser := false }]
    mentors := [1]
    profiles := [{ userId := 11, assignedMentor := none }]
    assignments :=
      [{ userId := 1, mentorId := 1, assignedBy := 9 },
       { userId := 2, mentorId := 1, assignedBy := 9 },
       { userId := 3, mentorId := 1, assignedBy := 9 },
       { userId := 4, mentorId := 1, assignedBy := 9 },
       { userId := 5, mentorId := 1, assignedBy := 9 },
       { userId := 6, mentorId := 1, assignedBy := 9 },
       { userId := 7, mentorId := 1, assignedBy := 9 },
       { userId := 8, mentorId := 1, assignedBy := 9 },
       { userId := 9, mentorId := 1, assignedBy := 9 },
       { userId := 10, mentorId := 1, assignedBy := 9 }]
    requests := [] }

/-- Store where mentor 1 has 9 active assignments (students 1..9) and student
11 is an unassigned non-staff user with a profile. -/
def nineMentorState : PortalState :=
  { users := [{ id := 11, isStaff := false, isSuperuser := false }]
    mentors := [1]
    profiles := [{ userId := 11, assignedMentor := none }]
    assignments :=
      [{ userId := 1, mentorId := 1, assignedBy := 9 },
       { userId := 2, mentorId := 1, assignedBy := 9 },
       { userId := 3, mentorId := 1, assignedBy := 9 },
       { userId := 4, mentorId := 1, assignedBy := 9 },
       { userId := 5, mentorId := 1, assignedBy := 9 },
       { userId := 6, mentorId := 1, assignedBy := 9 },
       { userId := 7, mentorId := 1, assignedBy := 9 },
       { userId := 8, mentorId := 1, assignedBy := 9 },
       { userId := 9, mentorId := 1, assignedBy := 9 }]
    requests := [] }

/-! ## Claims -/

/-- Claim C1: if `assign_mentor` returns success, afterwards the student's
`assigned_mentor` reference equals the given mentor, exactly one new
`MentorAssignment` audit row `(student, mentor, staff)` is appended, and
every `MentorRequest` of the student that was pending beforehand is approved;
if it returns failure, the store is unchanged.  The student is assumed to
have a profile row, and — by the reachable-state invariant of claim C2 — at
most one pending request. -/
theorem c1_assign_atomicity (s : PortalState) (staffId uid mid : Nat)
    (hprof : hasProfile s uid = true)
    (hpend : pendingCount s uid ≤ 1) :
    ((assign_mentor s staffId uid mid).1 = AssignResult.success →
      getAssignedMentor (assign_mentor s staffId uid mid).2 uid = some mid ∧
      (assign_mentor s staffId uid mid).2.assignments
        = s.assignments ++ [{ userId := uid, mentorId := mid, assignedBy := staffId }] ∧
      (assign_mentor s staffId uid mid).2.requests = approveEveryPending uid s.requests) ∧
    ((assign_mentor s staffId uid mid).1 ≠ AssignResult.success →
      (assign_mentor s staffId uid mid).2 = s) := by
  constructor
  · intro hs
    rcases assign_mentor_success_inv s staffId uid mid hs with ⟨u, hfu, hm, hstaff⟩
    rw [assign_mentor_success_state s staffId uid mid u hfu hm hstaff]
    refine ⟨?_, rfl, ?_⟩
    · exact getAssignedMentor_of_profiles _ s.profiles uid mid rfl hprof
    · exact approveFirstPending_eq_every uid s.requests hpend
  · exact assign_mentor_failure_state s staffId uid mid

/-- Witness for C1 at a concrete store: staff 9 assigns mentor 5 to student 1
who has one pending request. -/
theorem c1_assign_atomicity_witness :
    getAssignedMentor (assign_mentor exState 9 1 5).2 1 = some 5 ∧
    (assign_mentor exState 9 1 5).2.assignments
      = exState.assignments ++ [{ userId := 1, mentorId := 5, assignedBy := 9 }] ∧
    (assign_mentor exState 9 1 5).2.requests = approveEveryPending 1 exState.requests :=
  (c1_assign_atomicity exState 9 1 5 (by decide) (by decide)).1 (by decide)

/-- Claim C2: a student's repeated `request_mentor` calls without an
intervening resolution create a pending row only on the first call —
whenever a pending request exists the call is refused and the store is
unchanged, a call with no pending request creates exactly one — and along
any sequence of workflow actions the number of pending requests per student
never exceeds one. -/
theorem c2_single_pending_invariant (s : PortalState) (uid : Nat) (ops : List PortalOp)
    (h : pendingCount s uid ≤ 1) :
    pendingCount (applyOps s ops) uid ≤ 1 ∧
    (∀ t : PortalState, 0 < pendingCount t uid →
      request_mentor t uid = (RequestResult.alreadyPending, t)) ∧
    (∀ t : PortalState, pendingCount t uid = 0 →
      (request_mentor t uid).1 = RequestResult.created ∧
      pendingCount (request_mentor t uid).2 uid = 1) := by
  refine ⟨pendingCount_applyOps_le s ops uid h, fun t => request_mentor_of_pending t uid, ?_⟩
  intro t ht
  rw [request_mentor_of_no_pending t uid ht]
  refine ⟨rfl, ?_⟩
  simp only [pendingCount, List.countP_append, List.countP_cons, List.countP_nil] at ht ⊢
  simp [isPendingFor_self, ht]

/-- Witness for C2: two submissions by student 1 followed by an assignment
leave at most one pending request. -/
theorem c2_single_pending_invariant_witness :
    pendingCount
      (applyOps exState [PortalOp.submit 1, PortalOp.submit 1, PortalOp.assign 9 1 5]) 1 ≤ 1 :=
  (c2_single_pending_invariant exState 1
    [PortalOp.submit 1, PortalOp.submit 1, PortalOp.assign 9 1 5] (by decide)).1

/-- Claim C3 counterexample: student 1 has an active assigned mentor and no
pending request, yet `request_mentor` is not refused — it creates a new
pending `MentorRequest` row (the view checks only for a pending request,
never for an assigned mentor). -/
theorem c3_counterexample :
    getAssignedMentor mentoredState 1 = some 5 ∧
    pendingCount mentoredState 1 = 0 ∧
    (request_mentor mentoredState 1).1 = RequestResult.created ∧
    (request_mentor mentoredState 1).2.requests
      = [{ userId := 1, status := ReqStatus.pending }] := by
  decide

/-- Claim C3 amended: `request_mentor` is refused (warning, no new row,
store unchanged) exactly when the student already has a pending request;
having an assigned mentor alone does not block a new request. -/
theorem c3_refusal_iff_pending (s : PortalState) (uid : Nat) :
    ((request_mentor s uid).1 = RequestResult.alreadyPending ↔ 0 < pendingCount s uid) ∧
    (0 < pendingCount s uid → request_mentor s uid = (RequestResult.alreadyPending, s)) := by
  refine ⟨⟨?_, ?_⟩, request_mentor_of_pending s uid⟩
  · intro hres
    by_contra hnot
    have hz : pendingCount s uid = 0 := by omega
    rw [request_mentor_of_no_pending s uid hz] at hres
    cases hres
  · intro hp
    rw [request_mentor_of_pending s uid hp]

/-- Witness for the amended C3 at a concrete store (student 1 of `exState`
has a pending request and is refused). -/
theorem c3_refusal_iff_pending_witness :
    request_mentor exState 1 = (RequestResult.alreadyPending, exState) :=
  (c3_refusal_iff_pending exState 1).2 (by decide)

/-- Claim C4: from a fresh counter, five submissions within 60 seconds of
the first are all allowed (the counter stepping to 1..5), a sixth inside
that window is rejected with HTTP 429 and does not touch the counter, and a
call made once the stored counter has expired is allowed again. -/
theorem c4_rate_limit_boundary (t1 t2 t3 t4 t5 t6 t7 : Nat)
    (h12 : t1 ≤ t2) (h23 : t2 ≤ t3) (h34 : t3 ≤ t4) (h45 : t4 ≤ t5) (h56 : t5 ≤ t6)
    (hwin : t6 < t1 + 60) (hexp : t5 + 60 ≤ t7) :
    rateLimitCall none t1 = (RLResult.allowed, some { count := 1, expiresAt := t1 + 60 }) ∧
    rateLimitCall (some { count := 1, expiresAt := t1 + 60 }) t2
      = (RLResult.allowed, some { count := 2, expiresAt := t2 + 60 }) ∧
    rateLimitCall (some { count := 2, expiresAt := t2 + 60 }) t3
      = (RLResult.allowed, some { count := 3, expiresAt := t3 + 60 }) ∧
    rateLimitCall (some { count := 3, expiresAt := t3 + 60 }) t4
      = (RLResult.allowed, some { count := 4, expiresAt := t4 + 60 }) ∧
    rateLimitCall (some { count := 4, expiresAt := t4 + 60 }) t5
      = (RLResult.allowed, some { count := 5, expiresAt := t5 + 60 }) ∧
    rateLimitCall (some { count := 5, expiresAt := t5 + 60 }) t6
      = (RLResult.tooMany, some { count := 5, expiresAt := t5 + 60 }) ∧
    rateLimitCall (some { count := 5, expiresAt := t5 + 60 }) t7
      = (RLResult.allowed, some { count := 1, expiresAt := t7 + 60 }) :=
  ⟨rateLimitCall_fresh t1,
   rateLimitCall_live_allowed 1 (t1 + 60) t2 (by omega) (by omega),
   rateLimitCall_live_allowed 2 (t2 + 60) t3 (by omega) (by omega),
   rateLimitCall_live_allowed 3 (t3 + 60) t4 (by omega) (by omega),
   rateLimitCall_live_allowed 4 (t4 + 60) t5 (by omega) (by omega),
   rateLimitCall_live_full 5 (t5 + 60) t6 (by omega) (by omega),
   rateLimitCall_expired 5 (t5 + 60) t7 (by omega)⟩

/-- Witness for C4 with calls at seconds 0,10,20,30,40, a sixth at 50 and a
seventh at 120. -/
theorem c4_rate_limit_boundary_witness :
    rateLimitCall none 0 = (RLResult.allowed, some { count := 1, expiresAt := 60 }) ∧
    rateLimitCall (some { count := 1, expiresAt := 60 }) 10
      = (RLResult.allowed, some { count := 2, expiresAt := 70 }) ∧
    rateLimitCall (some { count := 2, expiresAt := 70 }) 20
      = (RLResult.allowed, some { count := 3, expiresAt := 80 }) ∧
    rateLimitCall (some { count := 3, expiresAt := 80 }) 30
      = (RLResult.allowed, some { count := 4, expiresAt := 90 }) ∧
    rateLimitCall (some { count := 4, expiresAt := 90 }) 40
      = (RLResult.allowed, some { count := 5, expiresAt := 100 }) ∧
    rateLimitCall (some { count := 5, expiresAt := 100 }) 50
      = (RLResult.tooMany, some { count := 5, expiresAt := 100 }) ∧
    rateLimitCall (some { count := 5, expiresAt := 100 }) 120
      = (RLResult.allowed, some { count := 1, expiresAt := 180 }) :=
  c4_rate_limit_boundary 0 10 20 30 40 50 120 (by decide) (by decide) (by decide)
    (by decide) (by decide) (by decide) (by decide)

/-- Claim C5 counterexample: after a first call at second 0 (expiry 60) and
a second allowed call at second 30, the stored expiry is 90 — the
`cache.set(..., timeout=60)` on every allowed call refreshes the window —
refuting that the counter always expires exactly 60 seconds after the call
that created it. -/
theorem c5_counterexample :
    rateLimitRun none [0] = some { count := 1, expiresAt := 60 } ∧
    rateLimitRun none [0, 30] = some { count := 2, expiresAt := 90 } ∧
    (90 : Nat) ≠ 0 + 60 := by
  decide

/-- Claim C5 amended: the window is sliding, not fixed-origin — every
allowed call stores the incremented count with expiry 60 seconds after that
very call, and a rejected call leaves the entry untouched. -/
theorem c5_window_refreshed_each_call (entry : Option RLEntry) (now : Nat) :
    ((rateLimitCall entry now).1 = RLResult.allowed →
      (rateLimitCall entry now).2
        = some { count := cacheGet entry now + 1, expiresAt := now + 60 }) ∧
    ((rateLimitCall entry now).1 = RLResult.tooMany →
      (rateLimitCall entry now).2 = entry) := by
  by_cases h : 5 ≤ cacheGet entry now
  · rw [rateLimitCall, if_pos h]
    exact ⟨(fun hr => by cases hr), (fun _ => rfl)⟩
  · rw [rateLimitCall, if_neg h]
    exact ⟨(fun _ => rfl), (fun hr => by cases hr)⟩

/-- Witness for the amended C5: the allowed call at second 30 on a counter
created at second 0 stores expiry 90. -/
theorem c5_window_refreshed_each_call_witness :
    (rateLimitCall (some { count := 1, expiresAt := 60 }) 30).2
      = some { count := cacheGet (some { count := 1, expiresAt := 60 }) 30 + 1,
               expiresAt := 30 + 60 } :=
  (c5_window_refreshed_each_call (some { count := 1, expiresAt := 60 }) 30).1 (by decide)

/-- Claim C6: a guarded privilege-grant attempt is refused with HTTP 403 and
no write whenever 4 or more staff accounts exist, so along any sequence of
guarded attempts from a store with at most 4 staff accounts the staff count
never exceeds 4. -/
theorem c6_admin_quota (users : List UserRec) (ids : List Nat)
    (h : staffCount users ≤ 4) :
    (∀ us : List UserRec, ∀ n : Nat, 4 ≤ staffCount us →
      adminCreateStaff us n = (GrantResult.forbidden, us)) ∧
    staffCount (adminCreateStaffSeq users ids) ≤ 4 := by
  refine ⟨?_, staffCount_seq_le ids users h⟩
  intro us n hc
  rw [adminCreateStaff, if_pos hc]

/-- Witness for C6: six creation attempts from an empty user table leave at
most 4 staff accounts. -/
theorem c6_admin_quota_witness :
    staffCount (adminCreateStaffSeq [] [1, 2, 3, 4, 5, 6]) ≤ 4 :=
  (c6_admin_quota [] [1, 2, 3, 4, 5, 6] (by decide)).2

/-- Claim C7 counterexample: mentor 1 already has 10 active assignments, yet
the `assign_mentor` view accepts an 11th student — the view performs no
capacity check, so an assign attempt targeting a full mentor is not refused. -/
theorem c7_counterexample :
    mentorLoad fullMentorState 1 = 10 ∧
    (assign_mentor fullMentorState 9 11 1).1 = AssignResult.success ∧
    (assign_mentor fullMentorState 9 11 1).2.assignments.length = 11 := by
  decide

/-- Claim C7 amended: availability = (active assignments < 10) is enforced
only by `MentorAssignmentForm.clean` — for a student without an existing
assignment row the form refuses exactly when the mentor's load is at least
10, hence accepts a 10th student at load 9 — while the `assign_mentor` view
performs no capacity check and, for a profiled non-staff student (the view
raises on a missing profile row before any write), succeeds for an
arbitrarily loaded mentor. -/
theorem c7_capacity_form_only (s : PortalState) (staffId uid mid : Nat) (u : UserRec)
    (hfresh : s.assignments.any (fun a => a.userId == uid) = false)
    (hfu : findUser s uid = some u) (hm : mentorExists s mid = true)
    (hstaff : (u.isStaff || u.isSuperuser) = false)
    (hprof : hasProfile s uid = true) :
    (mentorAssignmentFormClean s uid mid = FormCleanResult.mentorFull
      ↔ 10 ≤ mentorLoad s mid) ∧
    (mentorAssignmentFormClean s uid mid = FormCleanResult.ok
      ↔ mentorLoad s mid < 10) ∧
    (assign_mentor s staffId uid mid).1 = AssignResult.success := by
  refine ⟨?_, ?_, ?_⟩
  · rw [mentorAssignmentFormClean, if_neg (by simp [hfresh])]
    by_cases hload : 10 ≤ mentorLoad s mid
    · rw [if_pos hload]
      exact ⟨fun _ => hload, fun _ => rfl⟩
    · rw [if_neg hload]
      exact ⟨(fun hres => by cases hres), (fun hres => absurd hres hload)⟩
  · rw [mentorAssignmentFormClean, if_neg (by simp [hfresh])]
    by_cases hload : 10 ≤ mentorLoad s mid
    · rw [if_pos hload]
      exact ⟨(fun hres => by cases hres), (fun hres => absurd hload (by omega))⟩
    · rw [if_neg hload]
      exact ⟨fun _ => by omega, fun _ => rfl⟩
  · rw [assign_mentor_success_state s staffId uid mid u hfu hm hstaff]

/-- Witness for the amended C7: with mentor 1 at load 9, the form accepts
student 11 and the view assigns successfully. -/
theorem c7_capacity_form_only_witness :
    (mentorAssignmentFormClean nineMentorState 11 1 = FormCleanResult.mentorFull
      ↔ 10 ≤ mentorLoad nineMentorState 1) ∧
    (mentorAssignmentFormClean nineMentorState 11 1 = FormCleanResult.ok
      ↔ mentorLoad nineMentorState 1 < 10) ∧
    (assign_mentor nineMentorState 9 11 1).1 = AssignResult.success :=
  c7_capacity_form_only nineMentorState 9 11 1
    { id := 11, isStaff := false, isSuperuser := false }
    (by decide) (by decide) (by decide) (by decide) (by decide)

/-- Claim C8: when student and mentor both exist and the target student is a
staff or superuser account, `assign_mentor` is refused with the
staff-target error and the store is unchanged, regardless of every other
precondition. -/
theorem c8_staff_target_refused (s : PortalState) (staffId uid mid : Nat) (u : UserRec)
    (hfu : findUser s uid = some u) (hm : mentorExists s mid = true)
    (hstaff : u.isStaff = true ∨ u.isSuperuser = true) :
    assign_mentor s staffId uid mid = (AssignResult.staffTarget, s) := by
  have hb : (u.isStaff || u.isSuperuser) = true := by
    rcases hstaff with h | h <;> simp [h]
  simp [assign_mentor, hfu, hm, hb]

/-- Witness for C8: assigning mentor 5 to the staff account 9 is refused and
the store of `exState` is unchanged. -/
theorem c8_staff_target_refused_witness :
    assign_mentor exState 9 9 5 = (AssignResult.staffTarget, exState) :=
  c8_staff_target_refused exState 9 9 5
    { id := 9, isStaff := true, isSuperuser := false }
    (by decide) (by decide) (Or.inl rfl)

/-- Claim C9: the HTTP result and the resulting store of `assign_mentor` are
identical for every delivery outcome of the two post-transition
notifications — a notification failure is never surfaced to the caller and
never reverses or blocks the assignment. -/
theorem c9_notifications_never_surfaced (s : PortalState) (staffId uid mid : Nat)
    (se me : String) (d1 d2 d3 d4 : Bool) :
    (assign_mentor_view s staffId uid mid se me d1 d2).result
      = (assign_mentor s staffId uid mid).1 ∧
    (assign_mentor_view s staffId uid mid se me d1 d2).state
      = (assign_mentor s staffId uid mid).2 ∧
    (assign_mentor_view s staffId uid mid se me d1 d2).result
      = (assign_mentor_view s staffId uid mid se me d3 d4).result ∧
    (assign_mentor_view s staffId uid mid se me d1 d2).state
      = (assign_mentor_view s staffId uid mid se me d3 d4).state := by
  unfold assign_mentor_view
  rcases hres : assign_mentor s staffId uid mid with ⟨r, s2⟩
  cases r <;> simp

/-- Claim C10: a student who already has an active mentor can be assigned
again — the operation is not refused: it succeeds, overwrites the profile's
mentor reference with the new mentor, and appends one more audit row while
leaving every prior audit row in place. -/
theorem c10_reassignment_allowed (s : PortalState) (staffId uid mid : Nat)
    (u : UserRec) (m0 : Nat)
    (hfu : findUser s uid = some u) (hm : mentorExists s mid = true)
    (hstaff : (u.isStaff || u.isSuperuser) = false)
    (hcur : getAssignedMentor s uid = some m0) :
    (assign_mentor s staffId uid mid).1 = AssignResult.success ∧
    getAssignedMentor (assign_mentor s staffId uid mid).2 uid = some mid ∧
    (assign_mentor s staffId uid mid).2.assignments
      = s.assignments ++ [{ userId := uid, mentorId := mid, assignedBy := staffId }] := by
  have hprof : s.profiles.any (fun p => p.userId == uid) = true := by
    rw [getAssignedMentor] at hcur
    rcases hfind : s.profiles.find? (fun p => p.userId == uid) with _ | p
    · rw [hfind] at hcur
      cases hcur
    · have hpq := List.find?_some hfind
      exact List.any_eq_true.mpr ⟨p, List.mem_of_find?_eq_some hfind, hpq⟩
  rw [assign_mentor_success_state s staffId uid mid u hfu hm hstaff]
  exact ⟨rfl, getAssignedMentor_of_profiles _ s.profiles uid mid rfl hprof, rfl⟩

/-- Witness for C10: student 1 of `mentoredState` already has mentor 5 and
is reassigned to mentor 6; the old audit row stays, a new one is appended. -/
theorem c10_reassignment_allowed_witness :
    (assign_mentor mentoredState 9 1 6).1 = AssignResult.success ∧
    getAssignedMentor (assign_mentor mentoredState 9 1 6).2 1 = some 6 ∧
    (assign_mentor mentoredState 9 1 6).2.assignments
      = mentoredState.assignments ++ [{ userId := 1, mentorId := 6, assignedBy := 9 }] :=
  c10_reassignment_allowed mentoredState 9 1 6
    { id := 1, isStaff := false, isSuperuser := false } 5
    (by decide) (by decide) (by decide) (by decide)

end CollegePortal
